import Mathlib

/-!
Shallow embedding of the hotel property-management backend
(`hotel/db/db_interface.py`, `hotel/operations/bookings.py`,
`hotel/operations/customers.py`, `hotel/tests/stubs/*.py`) and proofs
about its persistence and operations layers.

Python dictionaries (`DataObject = dict[str, Any]`) are modelled as
association lists `List (String × Value)`; `Value.null` models Python's
`None`, `Value.date` models a `datetime.date` by its ordinal day number
(so that Python's `(to_date - from_date).days` becomes integer
subtraction). Raised exceptions are modelled with `Except OpError`.
-/

/-- Field values stored in a record: Python ints, strings, dates and `None`. -/
inductive Value where
  | int (n : Int)
  | str (s : String)
  | date (d : Int)
  | null
deriving DecidableEq

/-- A Python `DataObject = dict[str, Any]`, as an association list of fields. -/
abbrev DataObject : Type := List (String × Value)

/-- Dictionary lookup `d[k]`: the value at the first occurrence of key `k`. -/
def getF : DataObject → String → Option Value
  | [], _ => Option.none
  | (k', v') :: rest, k => if k' = k then some v' else getF rest k

/-- Dictionary assignment `d[k] = v` (also models `setattr(obj, k, v)`):
replaces the first binding of `k` in place, or appends a new binding. -/
def setF : DataObject → String → Value → DataObject
  | [], k, v => [(k, v)]
  | (k', v') :: rest, k, v =>
      if k' = k then (k, v) :: rest else (k', v') :: setF rest k v

/-- Errors raised by the embedded code. `notFound` stands for the backend's
failure on an absent record (the spec's `NotFound`); `notImplemented` models
Python's `NotImplementedError`; `keyError`, `typeError` and `indexError`
model the corresponding Python exceptions. -/
inductive OpError where
  | invalidDate
  | notFound
  | notImplemented (msg : String)
  | keyError
  | typeError
  | indexError
deriving DecidableEq

theorem getF_setF_same (r : DataObject) (k : String) (v : Value) :
    getF (setF r k v) k = some v := by
  induction r with
  | nil => simp [setF, getF]
  | cons hd tl ih =>
      by_cases h : hd.1 = k
      · simp [setF, getF, h]
      · simp [setF, getF, h, ih]

theorem getF_setF_other (r : DataObject) (k k' : String) (v : Value)
    (hne : k' ≠ k) : getF (setF r k' v) k = getF r k := by
  induction r with
  | nil => simp [setF, getF, hne]
  | cons hd tl ih =>
      obtain ⟨k0, v0⟩ := hd
      by_cases h : k0 = k'
      · subst h
        simp [setF, getF, hne]
      · simp [setF, getF, h, ih]

/-- The keys of a record, in order. -/
def keysOf (d : DataObject) : List String :=
  d.map Prod.fst

/-! ## The relational backend: `hotel/db/db_interface.py` (`DBInterface`)

The SQLAlchemy session is modelled as a store state: a list of records
keyed by integer primary key, plus the autoincrement counter the database
uses to assign fresh ids. `session.get(cls, id)` becomes `dbFind`,
committing a mutated record becomes `dbStore`, and `session.delete`
becomes `dbRemove`. -/

/-- State of one entity kind's table. `nextId` is the database's
autoincrement counter (id assignment is the storage backend's concern). -/
structure DBState where
  records : List (Int × DataObject)
  nextId : Int
deriving DecidableEq

/-- Primary-key lookup, `session.get(self.db_class, id)`. -/
def dbFind (s : DBState) (id : Int) : Option DataObject :=
  (s.records.find? (fun p => p.1 = id)).map Prod.snd

/-- Committing a record mutated in place: every record stored under `id`
is replaced by `rec`. -/
def dbStore (s : DBState) (id : Int) (rec : DataObject) : DBState :=
  { s with records := s.records.map (fun p => if p.1 = id then (id, rec) else p) }

/-- Removal of the record stored under `id` (`session.delete` + commit). -/
def dbRemove (s : DBState) (id : Int) : DBState :=
  { s with records := s.records.filter (fun p => ¬ p.1 = id) }

namespace DBInterface

/-- DBInterface.read_by_id: `session.get` then `to_dict`. `to_dict` lives in
`hotel/db/models.py`, which is not under src; modelled from the spec:
`read_by_id` "Fails with `NotFound` ... when no such id exists", so
`to_dict` applied to an absent record is modelled as the `notFound` error. -/
def read_by_id (s : DBState) (id : Int) : Except OpError DataObject :=
  match dbFind s id with
  | Option.none => .error .notFound
  | some rec => .ok rec

/-- DBInterface.read_all: every record of the table. -/
def read_all (s : DBState) : List DataObject :=
  s.records.map Prod.snd

/-- DBInterface.create: `self.db_class(**data)`, `session.add`, commit, then
`to_dict(result)`. The id column is filled by the database's autoincrement;
that assignment is modelled from the spec: "assigns a fresh unique `id`". -/
def create (s : DBState) (data : DataObject) : DataObject × DBState :=
  let result := setF data "id" (Value.int s.nextId)
  (result, { records := s.records ++ [(s.nextId, result)], nextId := s.nextId + 1 })

/-- DBInterface.update: `session.get`; on a missing id it returns `None`
before touching anything; otherwise every field of `data` whose value is
not `None` is written with `setattr` and the result committed. -/
def update (s : DBState) (id : Int) (data : DataObject) :
    Option DataObject × DBState :=
  match dbFind s id with
  | Option.none => (Option.none, s)
  | some result =>
      let result2 := data.foldl
        (fun r kv => if kv.2 ≠ Value.null then setF r kv.1 kv.2 else r) result
      (some result2, dbStore s id result2)

/-- DBInterface.delete: `session.get`, `session.delete(result)`, commit,
`to_dict(result)`. On a missing id, `session.delete(None)` raises
(SQLAlchemy rejects an unmapped instance); that failure on an absent
record is modelled as `notFound`. On success the returned value is the
record as it existed immediately before deletion. -/
def delete (s : DBState) (id : Int) : Except OpError (DataObject × DBState) :=
  match dbFind s id with
  | Option.none => .error .notFound
  | some result => .ok (result, dbRemove s id)

end DBInterface

/-! ## The persistence interface consumed by Operations

`hotel/operations/interface.py` (the `DataInterface` type the operations
functions are annotated with) is not under src. Modelled from the spec:
§4.1 defines the capability set `{read_by_id, read_all, create, update,
delete}` that every storage adapter or test double implements; operations
code depends only on this contract. Each capability threads the backend's
state `σ` explicitly and may fail. -/

structure DataInterface (σ : Type) where
  read_by_id : σ → Int → Except OpError (DataObject × σ)
  read_all : σ → List DataObject × σ
  create : σ → DataObject → Except OpError (DataObject × σ)
  update : σ → Int → DataObject → Except OpError (Option DataObject × σ)
  delete : σ → Int → Except OpError (DataObject × σ)

/-- The relational backend packaged as a `DataInterface` over `DBState`. -/
def dbI : DataInterface DBState where
  read_by_id s id := (DBInterface.read_by_id s id).map (fun r => (r, s))
  read_all s := (DBInterface.read_all s, s)
  create s data := .ok (DBInterface.create s data)
  update s id data := .ok (DBInterface.update s id data)
  delete s id := DBInterface.delete s id

/-! ## Test doubles: `hotel/tests/stubs/*.py`

`DataStubInterface` provides default `update`/`delete` implementations
that raise `NotImplementedError`; each concrete stub holds a fixture list
(`self._rooms` etc.) and never mutates it observably, so the stub state is
the fixture list itself. The three stubs' `read_by_id`/`read_all`/`create`
bodies are identical up to the fixture name, so they share one
definition each. -/

/-- Stub `__init__`: `self._xs = xs or defaults` — Python's `or` falls back
to the defaults both when no list is passed and when an empty (falsy) list
is passed, so a constructed stub always holds a nonempty fixture list. -/
def stubInit (xs : Option (List DataObject)) (defaults : List DataObject) :
    List DataObject :=
  match xs with
  | some (x :: rest) => x :: rest
  | _ => defaults

/-- Stub `read_by_id`: the first fixture record whose `id` field equals the
requested id, or else a copy of the first fixture record; either way the
result's `id` field is then overwritten with the requested id. On an empty
fixture list `self._xs[0]` raises `IndexError`. -/
def stubReadById (fixtures : List DataObject) (id : Int) :
    Except OpError DataObject :=
  match fixtures.find? (fun r => decide (getF r "id" = some (Value.int id))) with
  | some r => .ok (setF r "id" (Value.int id))
  | Option.none =>
      match fixtures with
      | [] => .error .indexError
      | r :: _ => .ok (setF r "id" (Value.int id))

/-- Stub `read_all`: a shallow copy of every fixture record. -/
def stubReadAll (fixtures : List DataObject) : List DataObject :=
  fixtures

/-- Stub `create`: a copy of the input with `data["id"] = 999`. -/
def stubCreate (data : DataObject) : DataObject :=
  setF data "id" (Value.int 999)

/-- Stub `update`: a copy of the input with `data["id"] = id`. -/
def stubUpdate (id : Int) (data : DataObject) : DataObject :=
  setF data "id" (Value.int id)

/-- DataStubInterface.delete, the non-abstract default: raises
`NotImplementedError`. `BookingStub` and `CustomerStub` do not override it. -/
def DataStubInterface.deleteDefault (s : List DataObject) (id : Int) :
    Except OpError (DataObject × List DataObject) :=
  .error (.notImplemented "delete() not implemented in this stub")

/-- DataStubInterface.update, the non-abstract default: raises
`NotImplementedError`. -/
def DataStubInterface.updateDefault (s : List DataObject) (id : Int)
    (data : DataObject) : Except OpError (Option DataObject × List DataObject) :=
  .error (.notImplemented "update() not implemented in this stub")

/-- BookingStub, packaged as a `DataInterface` over its fixture list.
It overrides `read_by_id`, `read_all`, `create` and `update`, and inherits
the `delete` default that raises `NotImplementedError`. -/
def bookingStubI : DataInterface (List DataObject) where
  read_by_id s id := (stubReadById s id).map (fun r => (r, s))
  read_all s := (stubReadAll s, s)
  create s data := .ok (stubCreate data, s)
  update s id data := .ok (some (stubUpdate id data), s)
  delete := DataStubInterface.deleteDefault

/-- CustomerStub as a `DataInterface`: same overrides as `BookingStub`. -/
def customerStubI : DataInterface (List DataObject) where
  read_by_id s id := (stubReadById s id).map (fun r => (r, s))
  read_all s := (stubReadAll s, s)
  create s data := .ok (stubCreate data, s)
  update s id data := .ok (some (stubUpdate id data), s)
  delete := DataStubInterface.deleteDefault

/-- RoomStub as a `DataInterface`: overrides all five capabilities; its
`delete` returns a fixed "Deleted Room" record. -/
def roomStubI : DataInterface (List DataObject) where
  read_by_id s id := (stubReadById s id).map (fun r => (r, s))
  read_all s := (stubReadAll s, s)
  create s data := .ok (stubCreate data, s)
  update s id data := .ok (some (stubUpdate id data), s)
  delete s id := .ok ([("id", Value.int id), ("number", Value.str "Deleted Room"),
    ("size", Value.int 0), ("price", Value.int 0)], s)

/-- Default fixture list of `RoomStub.__init__`. -/
def roomStubDefault : List DataObject :=
  [[("id", Value.int 1), ("number", Value.str "101"),
    ("size", Value.int 20), ("price", Value.int 100)],
   [("id", Value.int 2), ("number", Value.str "102"),
    ("size", Value.int 25), ("price", Value.int 120)],
   [("id", Value.int 3), ("number", Value.str "103"),
    ("size", Value.int 30), ("price", Value.int 150)]]

/-- Default fixture list of `BookingStub.__init__` (dates are stored as
strings in the fixtures). -/
def bookingStubDefault : List DataObject :=
  [[("id", Value.int 1), ("from_date", Value.str "2025-12-20"),
    ("to_date", Value.str "2025-12-22"), ("price", Value.int 200),
    ("customer_id", Value.int 1), ("room_id", Value.int 1)],
   [("id", Value.int 2), ("from_date", Value.str "2025-12-23"),
    ("to_date", Value.str "2025-12-25"), ("price", Value.int 300),
    ("customer_id", Value.int 2), ("room_id", Value.int 2)]]

/-- Default fixture list of `CustomerStub.__init__`. -/
def customerStubDefault : List DataObject :=
  [[("id", Value.int 1), ("name", Value.str "Alice"),
    ("email", Value.str "alice@example.com")],
   [("id", Value.int 2), ("name", Value.str "Bob"),
    ("email", Value.str "bob@example.com")],
   [("id", Value.int 3), ("name", Value.str "Charlie"),
    ("email", Value.str "charlie@example.com")]]

/-! ## Booking operations: `hotel/operations/bookings.py` -/

/-- BookingCreateData: the pydantic input model. `from_date`/`to_date` are
calendar dates, represented by their ordinal day numbers so that
`(to_date - from_date).days` is integer subtraction. -/
structure BookingCreateData where
  room_id : Int
  customer_id : Int
  from_date : Int
  to_date : Int

/-- BookingCreateData.model_dump: the input's fields as a dict, in field
order. Note there is no `price` field for the caller to supply. -/
def BookingCreateData.model_dump (d : BookingCreateData) : DataObject :=
  [("room_id", Value.int d.room_id), ("customer_id", Value.int d.customer_id),
   ("from_date", Value.date d.from_date), ("to_date", Value.date d.to_date)]

/-- create_booking: reads the room via the injected `room_interface`,
computes `days`, raises `InvalidDateError` when `days <= 0`, sets
`booking_dict["price"] = room["price"] * days` and creates the booking via
the injected `booking_interface`. The two backend states are threaded
explicitly and returned alongside the outcome, so that an error leaves
both visible states behind. `room["price"]` raises `KeyError` when the
field is absent; a non-integer price is modelled as `TypeError`. -/
def create_booking {σb σr : Type} (data : BookingCreateData)
    (booking_interface : DataInterface σb) (room_interface : DataInterface σr)
    (bs : σb) (rs : σr) : Except OpError DataObject × σb × σr :=
  match room_interface.read_by_id rs data.room_id with
  | .error e => (.error e, bs, rs)
  | .ok (room, rs1) =>
      let days := data.to_date - data.from_date
      if days ≤ 0 then (.error .invalidDate, bs, rs1)
      else
        match getF room "price" with
        | Option.none => (.error .keyError, bs, rs1)
        | some (Value.int p) =>
            let booking_dict := setF data.model_dump "price" (Value.int (p * days))
            match booking_interface.create bs booking_dict with
            | .error e => (.error e, bs, rs1)
            | .ok (created, bs1) => (.ok created, bs1, rs1)
        | some _ => (.error .typeError, bs, rs1)

/-- read_all_bookings: direct passthrough. -/
def read_all_bookings {σ : Type} (booking_interface : DataInterface σ)
    (s : σ) : List DataObject × σ :=
  booking_interface.read_all s

/-- read_booking_by_id: direct passthrough. -/
def read_booking_by_id {σ : Type} (booking_id : Int)
    (booking_interface : DataInterface σ) (s : σ) :
    Except OpError (DataObject × σ) :=
  booking_interface.read_by_id s booking_id

/-- delete_booking: direct passthrough to the interface's `delete`. -/
def delete_booking {σ : Type} (booking_id : Int)
    (booking_interface : DataInterface σ) (s : σ) :
    Except OpError (DataObject × σ) :=
  booking_interface.delete s booking_id

/-! ## Customer operations: `hotel/operations/customers.py`

Unlike the booking operations, these functions talk to the session
directly (`engine.DBSession()` and `DBCustomer`), not through a
`DataInterface`; the customer table is modelled by the same `DBState`. -/

/-- CustomerUpdateData: pydantic model with three optional string fields
defaulting to `None`. Pydantic additionally tracks which fields the caller
explicitly provided (its fields-set), which `model_dump` with
`exclude_unset=True` consults; the three `Bool`s model that per-field
set flag. -/
structure CustomerUpdateData where
  first_name : Option String
  last_name : Option String
  email_address : Option String
  first_name_set : Bool
  last_name_set : Bool
  email_address_set : Bool

/-- Value of an optional string field: `None` dumps as Python `None`. -/
def optVal : Option String → Value
  | Option.none => Value.null
  | some s => Value.str s

/-- CustomerUpdateData.model_dump with `exclude_unset=True`: the
explicitly-set fields, in model field order, keeping their values even
when those values are `None`. -/
def CustomerUpdateData.dumpExcludeUnset (d : CustomerUpdateData) : DataObject :=
  (if d.first_name_set then [("first_name", optVal d.first_name)] else []) ++
  (if d.last_name_set then [("last_name", optVal d.last_name)] else []) ++
  (if d.email_address_set then [("email_address", optVal d.email_address)] else [])

/-- Application of a sequence of unconditional `setattr`s,
`for key, value in items: setattr(obj, key, value)`. -/
def applyAll (r : DataObject) (data : DataObject) : DataObject :=
  data.foldl (fun acc kv => setF acc kv.1 kv.2) r

/-- update_customer: fetches the customer, then `setattr`s every field of
`data.model_dump(exclude_unset=True)` — with no `None` check — and
commits. On a missing id the fetch yields `None` and the subsequent
`setattr(None, ...)` (or `to_dict(None)` when no field was set) fails;
both failure paths are modelled as `notFound`. -/
def update_customer (customer_id : Int) (data : CustomerUpdateData)
    (s : DBState) : Except OpError (DataObject × DBState) :=
  match dbFind s customer_id with
  | Option.none => .error .notFound
  | some customer =>
      let customer2 := applyAll customer data.dumpExcludeUnset
      .ok (customer2, dbStore s customer_id customer2)

theorem getF_applyAll_not_mem (data : DataObject) (r : DataObject) (k : String)
    (h : ∀ kv ∈ data, kv.1 ≠ k) :
    getF (applyAll r data) k = getF r k := by
  induction data generalizing r with
  | nil => rfl
  | cons hd tl ih =>
      have hhd : hd.1 ≠ k := h hd (List.mem_cons_self hd tl)
      have htl : ∀ kv ∈ tl, kv.1 ≠ k := fun kv hkv => h kv (List.mem_cons_of_mem hd hkv)
      calc getF (applyAll (setF r hd.1 hd.2) tl) k
          = getF (setF r hd.1 hd.2) k := ih (setF r hd.1 hd.2) htl
        _ = getF r k := getF_setF_other r k hd.1 hd.2 hhd

theorem applyAll_append (r : DataObject) (a b : DataObject) :
    applyAll r (a ++ b) = applyAll (applyAll r a) b := by
  show List.foldl _ r (a ++ b) = _
  rw [List.foldl_append]
  rfl

/-- Conditional application used by `DBInterface.update`: `setattr` only
on fields whose value is not `None`. -/
def applyNonNull (r : DataObject) (data : DataObject) : DataObject :=
  data.foldl (fun acc kv => if kv.2 ≠ Value.null then setF acc kv.1 kv.2 else acc) r

theorem getF_applyNonNull_not_mem (data : DataObject) (r : DataObject) (k : String)
    (h : ∀ kv ∈ data, kv.1 ≠ k) :
    getF (applyNonNull r data) k = getF r k := by
  induction data generalizing r with
  | nil => rfl
  | cons hd tl ih =>
      have hhd : hd.1 ≠ k := h hd (List.mem_cons_self hd tl)
      have htl : ∀ kv ∈ tl, kv.1 ≠ k := fun kv hkv => h kv (List.mem_cons_of_mem hd hkv)
      show getF (applyNonNull (if hd.2 ≠ Value.null then setF r hd.1 hd.2 else r) tl) k = getF r k
      by_cases hv : hd.2 = Value.null
      · simp only [hv, ne_eq, not_true_eq_false, if_neg, ite_false]
        exact ih r htl
      · simp only [ne_eq, hv, not_false_eq_true, ite_true]
        calc getF (applyNonNull (setF r hd.1 hd.2) tl) k
            = getF (setF r hd.1 hd.2) k := ih (setF r hd.1 hd.2) htl
          _ = getF r k := getF_setF_other r k hd.1 hd.2 hhd

/-! ## Shared lemmas about the modelled store -/

theorem getF_eq_none_iff (d : DataObject) (k : String) :
    getF d k = Option.none ↔ ∀ kv ∈ d, kv.1 ≠ k := by
  induction d with
  | nil => simp [getF]
  | cons hd tl ih =>
      by_cases h : hd.1 = k
      · simp [getF, h]
      · simp [getF, h, ih]

theorem dbFind_dbRemove (s : DBState) (id : Int) :
    dbFind (dbRemove s id) id = Option.none := by
  unfold dbFind dbRemove
  simp only [Option.map_eq_none']
  rw [List.find?_eq_none]
  intro x hx
  have hmem := List.of_mem_filter hx
  simp at hmem ⊢
  exact hmem

theorem find?_map_replace (l : List (Int × DataObject)) (id : Int) (r2 : DataObject)
    (h : (l.find? (fun p => p.1 = id)).isSome) :
    (l.map (fun p => if p.1 = id then (id, r2) else p)).find? (fun p => p.1 = id) =
      some (id, r2) := by
  induction l with
  | nil => simp at h
  | cons hd tl ih =>
      by_cases hh : hd.1 = id
      · simp [List.find?_cons, hh]
      · have htl : (tl.find? (fun p => decide (p.1 = id))).isSome := by
          simpa [List.find?_cons, hh] using h
        simp [List.find?_cons, hh, ih htl]

theorem dbFind_dbStore_of_found (s : DBState) (id : Int) (rec0 r2 : DataObject)
    (h : dbFind s id = some rec0) :
    dbFind (dbStore s id r2) id = some r2 := by
  unfold dbFind dbStore
  unfold dbFind at h
  have hs : ((s.records.find? (fun p => p.1 = id))).isSome := by
    cases hf : s.records.find? (fun p => p.1 = id) with
    | none => rw [hf] at h; cases h
    | some x => simp [hf]
  simp [find?_map_replace s.records id r2 hs]

theorem getF_applyNonNull_mem (data : DataObject) (r : DataObject) (k : String)
    (v : Value) (hnd : (keysOf data).Nodup)
    (hmem : getF data k = some v) (hv : v ≠ Value.null) :
    getF (applyNonNull r data) k = some v := by
  induction data generalizing r with
  | nil => cases hmem
  | cons hd tl ih =>
      by_cases h : hd.1 = k
      · have hval : hd.2 = v := by
          simp [getF, h] at hmem
          exact hmem
        have hk : ∀ kv ∈ tl, kv.1 ≠ k := by
          intro kv hkv
          have : hd.1 ∉ keysOf tl := by
            simpa [keysOf] using (List.nodup_cons.mp hnd).1
          intro hcontra
          exact this (by simpa [keysOf, hcontra, h] using List.mem_map_of_mem Prod.fst hkv)
        show getF (applyNonNull (if hd.2 ≠ Value.null then setF r hd.1 hd.2 else r) tl) k = some v
        rw [hval, h]
        simp only [ne_eq, hv, not_false_eq_true, ite_true]
        rw [getF_applyNonNull_not_mem tl _ k hk]
        exact getF_setF_same r k v
      · have hmem' : getF tl k = some v := by
          simpa [getF, h] using hmem
        have hnd' : (keysOf tl).Nodup := by
          simpa [keysOf] using (List.nodup_cons.mp hnd).2
        show getF (applyNonNull (if hd.2 ≠ Value.null then setF r hd.1 hd.2 else r) tl) k = some v
        by_cases hvnull : hd.2 = Value.null
        · simp only [hvnull, ne_eq, not_true_eq_false, ite_false]
          exact ih r hnd' hmem'
        · simp only [ne_eq, hvnull, not_false_eq_true, ite_true]
          exact ih (setF r hd.1 hd.2) hnd' hmem'

theorem getF_applyNonNull_null (data : DataObject) (r : DataObject) (k : String)
    (hnd : (keysOf data).Nodup)
    (hmem : getF data k = some Value.null) :
    getF (applyNonNull r data) k = getF r k := by
  induction data generalizing r with
  | nil => cases hmem
  | cons hd tl ih =>
      by_cases h : hd.1 = k
      · have hval : hd.2 = Value.null := by
          simp [getF, h] at hmem
          exact hmem
        have hk : ∀ kv ∈ tl, kv.1 ≠ k := by
          intro kv hkv
          have : hd.1 ∉ keysOf tl := by
            simpa [keysOf] using (List.nodup_cons.mp hnd).1
          intro hcontra
          exact this (by simpa [keysOf, hcontra, h] using List.mem_map_of_mem Prod.fst hkv)
        show getF (applyNonNull (if hd.2 ≠ Value.null then setF r hd.1 hd.2 else r) tl) k = getF r k
        simp only [hval, ne_eq, not_true_eq_false, ite_false]
        exact getF_applyNonNull_not_mem tl r k hk
      · have hmem' : getF tl k = some Value.null := by
          simpa [getF, h] using hmem
        have hnd' : (keysOf tl).Nodup := by
          simpa [keysOf] using (List.nodup_cons.mp hnd).2
        show getF (applyNonNull (if hd.2 ≠ Value.null then setF r hd.1 hd.2 else r) tl) k = getF r k
        by_cases hvnull : hd.2 = Value.null
        · simp only [hvnull, ne_eq, not_true_eq_false, ite_false]
          exact ih r hnd' hmem'
        · simp only [ne_eq, hvnull, not_false_eq_true, ite_true]
          rw [ih (setF r hd.1 hd.2) hnd' hmem']
          exact getF_setF_other r k hd.1 hd.2 h

/-! ## Claim theorems -/

/-- C6: `DBInterface.delete` on an existing record removes it and returns
the record's value exactly as it existed immediately before deletion, and
a subsequent `read_by_id` on the same id fails with `NotFound`;
`delete` on a nonexistent id fails with `NotFound` rather than succeeding. -/
theorem DBInterface_delete_removes_and_returns (s : DBState) (id : Int) :
    (∀ r, dbFind s id = some r →
        DBInterface.delete s id = .ok (r, dbRemove s id) ∧
        DBInterface.read_by_id (dbRemove s id) id = .error .notFound) ∧
    (dbFind s id = Option.none → DBInterface.delete s id = .error .notFound) := by
  constructor
  · intro r hr
    constructor
    · unfold DBInterface.delete
      rw [hr]
    · unfold DBInterface.read_by_id
      rw [dbFind_dbRemove]
  · intro hn
    unfold DBInterface.delete
    rw [hn]

/-- Witness for C6, on a one-record store. -/
theorem DBInterface_delete_removes_and_returns_witness :
    DBInterface.delete ⟨[(1, [("id", Value.int 1), ("name", Value.str "Alice")])], 2⟩ 1 =
      .ok ([("id", Value.int 1), ("name", Value.str "Alice")],
           dbRemove ⟨[(1, [("id", Value.int 1), ("name", Value.str "Alice")])], 2⟩ 1) ∧
    DBInterface.read_by_id
      (dbRemove ⟨[(1, [("id", Value.int 1), ("name", Value.str "Alice")])], 2⟩ 1) 1 =
      .error .notFound ∧
    DBInterface.delete ⟨[(1, [("id", Value.int 1), ("name", Value.str "Alice")])], 2⟩ 5 =
      .error .notFound := by
  refine ⟨?_, ?_, ?_⟩
  · exact ((DBInterface_delete_removes_and_returns _ 1).1
      [("id", Value.int 1), ("name", Value.str "Alice")] (by decide)).1
  · exact ((DBInterface_delete_removes_and_returns _ 1).1
      [("id", Value.int 1), ("name", Value.str "Alice")] (by decide)).2
  · exact (DBInterface_delete_removes_and_returns _ 5).2 (by decide)

/-- C7: `DBInterface.update` on an id with no stored record returns the
absent result `None` and leaves the store's state unchanged. -/
theorem DBInterface_update_missing_id (s : DBState) (id : Int) (data : DataObject)
    (h : dbFind s id = Option.none) :
    DBInterface.update s id data = (Option.none, s) := by
  unfold DBInterface.update
  rw [h]

/-- Witness for C7, on a one-record store and a nonexistent id. -/
theorem DBInterface_update_missing_id_witness :
    DBInterface.update ⟨[(1, [("id", Value.int 1), ("name", Value.str "Alice")])], 2⟩ 5
        [("name", Value.str "Bob")] =
      (Option.none, ⟨[(1, [("id", Value.int 1), ("name", Value.str "Alice")])], 2⟩) :=
  DBInterface_update_missing_id _ 5 _ (by decide)

/-- C8: `BookingStub` implements only a strict subset of the capability
set; `delete_booking` through it hits the `DataStubInterface` default and
fails with `NotImplementedError` for every id and every fixture list,
never succeeding silently. -/
theorem delete_booking_stub_not_implemented (booking_id : Int)
    (fixtures : List DataObject) :
    delete_booking booking_id bookingStubI fixtures =
      .error (.notImplemented "delete() not implemented in this stub") :=
  rfl

/-- C1: with `to_date` strictly after `from_date`, `create_booking` against
the relational booking store returns a record whose `price` field equals
the day difference times the `price` of the room that
`room_interface.read_by_id(data.room_id)` returned (for any room backend),
and that record, price included, is what gets stored; the input carries no
price field for the caller to supply. -/
theorem create_booking_price {σr : Type} (d : BookingCreateData)
    (ri : DataInterface σr) (bs : DBState) (rs rs1 : σr)
    (room : DataObject) (p : Int)
    (hread : ri.read_by_id rs d.room_id = .ok (room, rs1))
    (hprice : getF room "price" = some (Value.int p))
    (hdays : 0 < d.to_date - d.from_date) :
    ∃ booking bs1,
      create_booking d dbI ri bs rs = (.ok booking, bs1, rs1) ∧
      getF booking "price" = some (Value.int (p * (d.to_date - d.from_date))) ∧
      (bs.nextId, booking) ∈ bs1.records := by
  have hne : ¬ (d.to_date - d.from_date ≤ 0) := by omega
  refine ⟨setF (setF d.model_dump "price" (Value.int (p * (d.to_date - d.from_date))))
      "id" (Value.int bs.nextId),
    { records := bs.records ++ [(bs.nextId,
        setF (setF d.model_dump "price" (Value.int (p * (d.to_date - d.from_date))))
          "id" (Value.int bs.nextId))],
      nextId := bs.nextId + 1 }, ?_, ?_, ?_⟩
  · simp only [create_booking, hread, hne, ite_false, hprice]
    rfl
  · rw [getF_setF_other _ "price" "id" _ (by decide)]
    exact getF_setF_same _ _ _
  · exact List.mem_append_right _ (List.mem_singleton.mpr rfl)

/-- Witness for C1: room 1 of the default stub fixtures (price 100), a
three-day stay, against an empty relational booking store. -/
theorem create_booking_price_witness :
    ∃ booking bs1,
      create_booking ⟨1, 1, 0, 3⟩ dbI roomStubI ⟨[], 1⟩ roomStubDefault =
        (.ok booking, bs1, roomStubDefault) ∧
      getF booking "price" = some (Value.int 300) ∧
      ((1 : Int), booking) ∈ bs1.records :=
  create_booking_price ⟨1, 1, 0, 3⟩ roomStubI ⟨[], 1⟩ roomStubDefault roomStubDefault
    [("id", Value.int 1), ("number", Value.str "101"),
     ("size", Value.int 20), ("price", Value.int 100)] 100
    rfl (by decide) (by decide)

/-- C2: with `to_date <= from_date`, `create_booking` fails with
`InvalidDateError` and performs no write — the theorem holds for every
booking interface `bi` and returns the booking state `bs` untouched, so
`booking_interface.create` cannot have been invoked. (The room is read
before the date check; the hypothesis records that that read returned.) -/
theorem create_booking_invalid_dates {σb σr : Type} (d : BookingCreateData)
    (bi : DataInterface σb) (ri : DataInterface σr) (bs : σb) (rs rs1 : σr)
    (room : DataObject)
    (hread : ri.read_by_id rs d.room_id = .ok (room, rs1))
    (hdates : d.to_date ≤ d.from_date) :
    create_booking d bi ri bs rs = (.error .invalidDate, bs, rs1) := by
  have hle : d.to_date - d.from_date ≤ 0 := by omega
  simp only [create_booking, hread, hle, ite_true]

/-- Witness for C2: a same-day stay against the default stub fixtures. -/
theorem create_booking_invalid_dates_witness :
    create_booking ⟨1, 1, 5, 5⟩ bookingStubI roomStubI
        bookingStubDefault roomStubDefault =
      (.error .invalidDate, bookingStubDefault, roomStubDefault) :=
  create_booking_invalid_dates ⟨1, 1, 5, 5⟩ bookingStubI roomStubI
    bookingStubDefault roomStubDefault roomStubDefault
    [("id", Value.int 1), ("number", Value.str "101"),
     ("size", Value.int 20), ("price", Value.int 100)]
    rfl (by decide)

/-- C3: `DBInterface.update` on an existing record is a partial update:
the stored record becomes `applyNonNull` of the old record, on which every
key bound to a non-null value in `data` now carries that value, while
every key absent from `data` or bound to null in `data` keeps its
previous value; the merged record is what the store now holds at `id`. -/
theorem DBInterface_update_partial (s : DBState) (id : Int) (data rec0 : DataObject)
    (hfind : dbFind s id = some rec0)
    (hnd : (keysOf data).Nodup) :
    DBInterface.update s id data =
      (some (applyNonNull rec0 data), dbStore s id (applyNonNull rec0 data)) ∧
    (∀ k v, getF data k = some v → v ≠ Value.null →
        getF (applyNonNull rec0 data) k = some v) ∧
    (∀ k, getF data k = Option.none ∨ getF data k = some Value.null →
        getF (applyNonNull rec0 data) k = getF rec0 k) ∧
    dbFind (dbStore s id (applyNonNull rec0 data)) id =
      some (applyNonNull rec0 data) := by
  refine ⟨?_, ?_, ?_, ?_⟩
  · unfold DBInterface.update
    rw [hfind]
    rfl
  · intro k v hv hvn
    exact getF_applyNonNull_mem data rec0 k v hnd hv hvn
  · intro k hk
    cases hk with
    | inl h => exact getF_applyNonNull_not_mem data rec0 k ((getF_eq_none_iff data k).mp h)
    | inr h => exact getF_applyNonNull_null data rec0 k hnd h
  · exact dbFind_dbStore_of_found s id rec0 _ hfind

/-- davidRec: the stored customer of the spec's scenario 4. -/
def davidRec : DataObject :=
  [("id", Value.int 1), ("first_name", Value.str "David"),
   ("last_name", Value.str "Original"),
   ("email_address", Value.str "david@example.com")]

/-- davidState: a customer table holding only `davidRec` under id 1. -/
def davidState : DBState := ⟨[(1, davidRec)], 2⟩

/-- Witness for C3: updating only `email_address` leaves `first_name` and
`last_name` at their pre-update values. -/
theorem DBInterface_update_partial_witness :
    DBInterface.update davidState 1
        [("email_address", Value.str "david.new@example.com")] =
      (some (applyNonNull davidRec
          [("email_address", Value.str "david.new@example.com")]),
       dbStore davidState 1 (applyNonNull davidRec
          [("email_address", Value.str "david.new@example.com")])) ∧
    getF (applyNonNull davidRec
        [("email_address", Value.str "david.new@example.com")])
      "email_address" = some (Value.str "david.new@example.com") ∧
    getF (applyNonNull davidRec
        [("email_address", Value.str "david.new@example.com")])
      "first_name" = some (Value.str "David") ∧
    getF (applyNonNull davidRec
        [("email_address", Value.str "david.new@example.com")])
      "last_name" = some (Value.str "Original") := by
  have h := DBInterface_update_partial davidState 1
    [("email_address", Value.str "david.new@example.com")] davidRec
    (by decide) (by decide)
  refine ⟨h.1, h.2.1 "email_address" _ (by decide) (by decide), ?_, ?_⟩
  · rw [h.2.2.1 "first_name" (Or.inl (by decide))]
    decide
  · rw [h.2.2.1 "last_name" (Or.inl (by decide))]
    decide

theorem getF_applyAll_dump_first_name (c : DataObject) (d : CustomerUpdateData) :
    getF (applyAll c d.dumpExcludeUnset) "first_name" =
      if d.first_name_set then some (optVal d.first_name)
      else getF c "first_name" := by
  obtain ⟨fn, ln, em, bfn, bln, bem⟩ := d
  cases bfn <;> cases bln <;> cases bem <;>
    simp [CustomerUpdateData.dumpExcludeUnset, applyAll,
      getF_setF_same, getF_setF_other]

theorem getF_applyAll_dump_last_name (c : DataObject) (d : CustomerUpdateData) :
    getF (applyAll c d.dumpExcludeUnset) "last_name" =
      if d.last_name_set then some (optVal d.last_name)
      else getF c "last_name" := by
  obtain ⟨fn, ln, em, bfn, bln, bem⟩ := d
  cases bfn <;> cases bln <;> cases bem <;>
    simp [CustomerUpdateData.dumpExcludeUnset, applyAll,
      getF_setF_same, getF_setF_other]

theorem getF_applyAll_dump_email (c : DataObject) (d : CustomerUpdateData) :
    getF (applyAll c d.dumpExcludeUnset) "email_address" =
      if d.email_address_set then some (optVal d.email_address)
      else getF c "email_address" := by
  obtain ⟨fn, ln, em, bfn, bln, bem⟩ := d
  cases bfn <;> cases bln <;> cases bem <;>
    simp [CustomerUpdateData.dumpExcludeUnset, applyAll,
      getF_setF_same, getF_setF_other]

/-- nullFirstNameUpdate: an update whose `first_name` was explicitly
passed as `None` and whose other fields were not passed at all. -/
def nullFirstNameUpdate : CustomerUpdateData :=
  { first_name := Option.none, last_name := Option.none,
    email_address := Option.none,
    first_name_set := true, last_name_set := false,
    email_address_set := false }

/-- C4 counterexample: a field explicitly set to null in the input is NOT
left unchanged — `update_customer` overwrites David's `first_name` with
null, because `model_dump(exclude_unset=True)` keeps explicitly-set null
fields and the code applies them with no null check. -/
theorem update_customer_null_overwrites :
    update_customer 1 nullFirstNameUpdate davidState =
      .ok ([("id", Value.int 1), ("first_name", Value.null),
            ("last_name", Value.str "Original"),
            ("email_address", Value.str "david@example.com")],
           dbStore davidState 1
             [("id", Value.int 1), ("first_name", Value.null),
              ("last_name", Value.str "Original"),
              ("email_address", Value.str "david@example.com")]) ∧
    getF davidRec "first_name" = some (Value.str "David") ∧
    Value.null ≠ Value.str "David" := by
  refine ⟨rfl, by decide, by decide⟩

/-- C4 amended: `update_customer` on an existing customer applies exactly
the fields the caller explicitly set — including fields explicitly set to
null, which are overwritten with null — and leaves every unset field
unchanged; the merge happens in the operations layer via direct session
access, not through the store's partial-update `update`. -/
theorem update_customer_applies_set_fields (customer_id : Int)
    (d : CustomerUpdateData) (s : DBState) (customer : DataObject)
    (hfind : dbFind s customer_id = some customer) :
    ∃ c2, update_customer customer_id d s = .ok (c2, dbStore s customer_id c2) ∧
      (d.first_name_set = true → getF c2 "first_name" = some (optVal d.first_name)) ∧
      (d.first_name_set = false → getF c2 "first_name" = getF customer "first_name") ∧
      (d.last_name_set = true → getF c2 "last_name" = some (optVal d.last_name)) ∧
      (d.last_name_set = false → getF c2 "last_name" = getF customer "last_name") ∧
      (d.email_address_set = true →
        getF c2 "email_address" = some (optVal d.email_address)) ∧
      (d.email_address_set = false →
        getF c2 "email_address" = getF customer "email_address") := by
  refine ⟨applyAll customer d.dumpExcludeUnset, ?_, ?_, ?_, ?_, ?_, ?_, ?_⟩
  · unfold update_customer
    rw [hfind]
  · intro hset
    rw [getF_applyAll_dump_first_name, hset, if_pos rfl]
  · intro hset
    rw [getF_applyAll_dump_first_name, hset]
    simp
  · intro hset
    rw [getF_applyAll_dump_last_name, hset, if_pos rfl]
  · intro hset
    rw [getF_applyAll_dump_last_name, hset]
    simp
  · intro hset
    rw [getF_applyAll_dump_email, hset, if_pos rfl]
  · intro hset
    rw [getF_applyAll_dump_email, hset]
    simp

/-- emailOnlyUpdate: only `email_address` was explicitly passed. -/
def emailOnlyUpdate : CustomerUpdateData :=
  { first_name := Option.none, last_name := Option.none,
    email_address := some "david.new@example.com",
    first_name_set := false, last_name_set := false,
    email_address_set := true }

/-- Witness for the amended C4, on the spec's scenario 4. -/
theorem update_customer_applies_set_fields_witness :
    ∃ c2, update_customer 1 emailOnlyUpdate davidState =
        .ok (c2, dbStore davidState 1 c2) ∧
      getF c2 "email_address" = some (Value.str "david.new@example.com") ∧
      getF c2 "first_name" = some (Value.str "David") ∧
      getF c2 "last_name" = some (Value.str "Original") := by
  obtain ⟨c2, heq, hfn, hfn0, hln, hln0, hem, hem0⟩ :=
    update_customer_applies_set_fields 1 emailOnlyUpdate davidState davidRec
      (by decide)
  refine ⟨c2, heq, ?_, ?_, ?_⟩
  · exact hem rfl
  · rw [hfn0 rfl]
    decide
  · rw [hln0 rfl]
    decide

/-- C5 counterexample: under the stub backend, a booking for room 42 —
which exists in no fixture — completes successfully instead of failing,
priced at the first fixture room's rate (100 per night, 2 nights). -/
theorem create_booking_unknown_room_succeeds_on_stub :
    create_booking ⟨42, 1, 0, 2⟩ bookingStubI roomStubI
        bookingStubDefault roomStubDefault =
      (.ok [("room_id", Value.int 42), ("customer_id", Value.int 1),
            ("from_date", Value.date 0), ("to_date", Value.date 2),
            ("price", Value.int 200), ("id", Value.int 999)],
       bookingStubDefault, roomStubDefault) := by
  rfl

/-- C5 amended: only under the relational backend does a nonexistent
`room_id` make `create_booking` fail loudly with the propagated `NotFound`
and leave the booking store untouched (for any booking backend); under the
stub backend the lookup silently substitutes the first fixture room. -/
theorem create_booking_missing_room_db {σb : Type} (d : BookingCreateData)
    (bi : DataInterface σb) (bs : σb) (rs : DBState)
    (h : dbFind rs d.room_id = Option.none) :
    create_booking d bi dbI bs rs = (.error .notFound, bs, rs) := by
  have hread : dbI.read_by_id rs d.room_id = .error .notFound := by
    show (DBInterface.read_by_id rs d.room_id).map _ = _
    unfold DBInterface.read_by_id
    rw [h]
    rfl
  simp only [create_booking, hread]

/-- Witness for the amended C5: room 42 against an empty room table. -/
theorem create_booking_missing_room_db_witness :
    create_booking ⟨42, 1, 0, 2⟩ bookingStubI dbI bookingStubDefault ⟨[], 1⟩ =
      (.error .notFound, bookingStubDefault, ⟨[], 1⟩) :=
  create_booking_missing_room_db ⟨42, 1, 0, 2⟩ bookingStubI
    bookingStubDefault ⟨[], 1⟩ (by decide)

/-- C9 counterexample: two successive `create` calls on the same
`BookingStub` (its state is returned unchanged by the first call) both
return a record with id 999 — the second returned id equals the
previously returned one, so ids are not fresh across creates. -/
theorem bookingStub_create_repeats_id :
    bookingStubI.create bookingStubDefault [("room_id", Value.int 1)] =
      .ok ([("room_id", Value.int 1), ("id", Value.int 999)],
           bookingStubDefault) ∧
    bookingStubI.create bookingStubDefault [("room_id", Value.int 2)] =
      .ok ([("room_id", Value.int 2), ("id", Value.int 999)],
           bookingStubDefault) ∧
    getF [("room_id", Value.int 1), ("id", Value.int 999)] "id" =
      getF [("room_id", Value.int 2), ("id", Value.int 999)] "id" := by
  refine ⟨rfl, rfl, rfl⟩

/-- Predicate that every stored primary key is below the autoincrement
counter; every table reachable from the empty one satisfies it. -/
def idsBelowNext (s : DBState) : Prop :=
  ∀ p ∈ s.records, p.1 < s.nextId

/-- C9 amended: the relational backend's `create` assigns the fresh id
`nextId`, distinct from every stored id; the invariant is preserved by the
create, and by any subsequent delete — the counter never decreases, so ids
are never reused. The stubs' `create`, by contrast, always returns the
fixed id 999 (see the counterexample). -/
theorem DBInterface_create_fresh_id (s : DBState) (data : DataObject)
    (h : idsBelowNext s) :
    getF (DBInterface.create s data).1 "id" = some (Value.int s.nextId) ∧
    (∀ p ∈ s.records, p.1 ≠ s.nextId) ∧
    idsBelowNext (DBInterface.create s data).2 ∧
    (∀ j : Int, idsBelowNext (dbRemove (DBInterface.create s data).2 j)) := by
  have h3 : idsBelowNext (DBInterface.create s data).2 := by
    intro p hp
    show p.1 < s.nextId + 1
    rcases List.mem_append.mp hp with h1 | h1
    · have := h p h1
      omega
    · have : p = (s.nextId, setF data "id" (Value.int s.nextId)) :=
        List.mem_singleton.mp h1
      rw [this]
      omega
  refine ⟨?_, ?_, h3, ?_⟩
  · exact getF_setF_same data "id" (Value.int s.nextId)
  · intro p hp
    exact Int.ne_of_lt (h p hp)
  · intro j p hp
    exact h3 p (List.mem_of_mem_filter hp)

/-- Witness for the amended C9, on a one-record table. -/
theorem DBInterface_create_fresh_id_witness :
    getF (DBInterface.create ⟨[(1, davidRec)], 2⟩ [("name", Value.str "Eve")]).1
        "id" = some (Value.int 2) ∧
    (∀ p ∈ ([(1, davidRec)] : List (Int × DataObject)), p.1 ≠ 2) ∧
    idsBelowNext (DBInterface.create ⟨[(1, davidRec)], 2⟩
        [("name", Value.str "Eve")]).2 ∧
    (∀ j : Int, idsBelowNext (dbRemove (DBInterface.create ⟨[(1, davidRec)], 2⟩
        [("name", Value.str "Eve")]).2 j)) :=
  DBInterface_create_fresh_id ⟨[(1, davidRec)], 2⟩ [("name", Value.str "Eve")]
    (by
      intro p hp
      rw [List.mem_singleton.mp hp]
      decide)

/-- C10: for an id matching no fixture record, the stubs' shared
`read_by_id` does not fail: it returns a copy of the first fixture record
with its `id` field overwritten to the requested id; consequently
`create_booking` against the stubs completes and silently prices the
unknown room at the first fixture room's rate. -/
theorem stub_read_by_id_missing_returns_first (r0 : DataObject)
    (rest : List DataObject) (id : Int)
    (hmiss : ∀ x ∈ r0 :: rest, getF x "id" ≠ some (Value.int id)) :
    stubReadById (r0 :: rest) id = .ok (setF r0 "id" (Value.int id)) ∧
    (∀ (d : BookingCreateData) (bs : List DataObject) (p : Int),
        d.room_id = id → 0 < d.to_date - d.from_date →
        getF r0 "price" = some (Value.int p) →
        create_booking d bookingStubI roomStubI bs (r0 :: rest) =
          (.ok (stubCreate (setF d.model_dump "price"
              (Value.int (p * (d.to_date - d.from_date))))),
           bs, r0 :: rest)) := by
  have hfind : (r0 :: rest).find?
      (fun r => decide (getF r "id" = some (Value.int id))) = Option.none := by
    rw [List.find?_eq_none]
    intro x hx
    simpa using hmiss x hx
  have h1 : stubReadById (r0 :: rest) id = .ok (setF r0 "id" (Value.int id)) := by
    unfold stubReadById
    rw [hfind]
  refine ⟨h1, ?_⟩
  intro d bs p hid hdays hprice
  have hne : ¬ (d.to_date - d.from_date ≤ 0) := by omega
  have hread : roomStubI.read_by_id (r0 :: rest) d.room_id =
      .ok (setF r0 "id" (Value.int id), r0 :: rest) := by
    rw [hid]
    show (stubReadById (r0 :: rest) id).map _ = _
    rw [h1]
    rfl
  have hp2 : getF (setF r0 "id" (Value.int id)) "price" = some (Value.int p) := by
    rw [getF_setF_other r0 "price" "id" _ (by decide)]
    exact hprice
  simp only [create_booking, hread, hne, ite_false, hp2]
  rfl

/-- Witness for C10: room 42 against the default room fixtures; the
booking is created and priced at room 101's rate of 100 per night. -/
theorem stub_read_by_id_missing_returns_first_witness :
    stubReadById roomStubDefault 42 =
      .ok (setF [("id", Value.int 1), ("number", Value.str "101"),
        ("size", Value.int 20), ("price", Value.int 100)] "id" (Value.int 42)) ∧
    create_booking ⟨42, 7, 10, 12⟩ bookingStubI roomStubI
        bookingStubDefault roomStubDefault =
      (.ok (stubCreate (setF (BookingCreateData.model_dump ⟨42, 7, 10, 12⟩)
          "price" (Value.int (100 * (12 - 10))))),
       bookingStubDefault, roomStubDefault) := by
  obtain ⟨h1, h2⟩ := stub_read_by_id_missing_returns_first
    [("id", Value.int 1), ("number", Value.str "101"),
     ("size", Value.int 20), ("price", Value.int 100)]
    [[("id", Value.int 2), ("number", Value.str "102"),
      ("size", Value.int 25), ("price", Value.int 120)],
     [("id", Value.int 3), ("number", Value.str "103"),
      ("size", Value.int 30), ("price", Value.int 150)]]
    42 (by decide)
  exact ⟨h1, h2 ⟨42, 7, 10, 12⟩ bookingStubDefault 100 rfl (by decide) (by decide)⟩
